import Mathlib

/-!
A shallow embedding of the unit-propagation proxy `UExpr` from
`polars_units/uexpr.py`, together with theorems checking the repository
specification against it.

Modelling choices, shared by every definition below:

* A pint `Unit` is a finitely supported exponent map over the named units of
  a registry; we fix a universe of `n` named units and represent a unit as a
  vector `Fin n → ℚ` of exponents (`meter * second ** -2` has exponent 1 on
  the `meter` coordinate and -2 on the `second` coordinate).  Unit algebra
  (`*`, `/`, `**`) is exponent arithmetic, exactly as in pint's unit
  container, and unit equality is exponent-vector equality.
* A registry's dimensional content is a map `dims : Fin n → Fin d → ℚ`
  giving the dimension vector of each named unit; the dimensionality of a
  unit is the exponent-weighted sum of these, and a unit is dimensionless
  when that sum vanishes (this matches pint, where `radian` can be
  dimensionless while not being the empty unit).
* Registry *identity* (Python `is`) is modelled by a natural number id
  carried by each `UExprS`; the module-level `default_ureg` is id 0.
  `UExpr.__init__` with `unit_registry=None` stores the default id.
* Python floats that multiply an underlying expression (user scalars and
  conversion factors alike) are modelled exactly as formal magnitudes
  `Mag n`: a rational coefficient times a formal product of the base scale
  symbols of the named units.  The conversion factor
  `(1 * u).to(v).magnitude` of pint is then the formal quotient of the two
  unit scales, and round-trip factors cancel exactly.
* A polars `pl.Expr` is an opaque construction tree: we record every
  operation the proxy performs on it as a syntax-tree node and prove
  properties of the trees the code builds.  Scalar operands that are not
  expressions appear in a forwarded call's argument list as literal nodes.
* Fallible paths (`raise`) are `Except PyError`.  For binary operators the
  source returns `NotImplemented` on unsupported operands; we model the
  interpreter's dispatch for operand values that themselves define no
  reflected operator accepting a `UExpr` (the `obj` constructor below), in
  which case Python raises a `TypeError` naming both operand types.
-/

namespace PolarsUnits

/-- A pint unit over `n` named units: the exponent of each named unit. -/
abbrev UnitV (n : ℕ) := Fin n → ℚ

/-- The empty (dimensionless) unit container, `ureg.dimensionless`. -/
def uzero (n : ℕ) : UnitV n := fun _ => 0

/-- pint unit product `u * v`: exponents add. -/
def umul {n : ℕ} (u v : UnitV n) : UnitV n := fun i => u i + v i

/-- pint unit quotient `u / v`: exponents subtract. -/
def udiv {n : ℕ} (u v : UnitV n) : UnitV n := fun i => u i - v i

/-- pint unit power `u ** p` (fractional `p` allowed): exponents scale. -/
def upow {n : ℕ} (u : UnitV n) (p : ℚ) : UnitV n := fun i => u i * p

/-- Dimensionality of a unit: exponent-weighted sum of the dimension
vectors `dims` that the registry assigns to each named unit. -/
def udim {n d : ℕ} (dims : Fin n → Fin d → ℚ) (u : UnitV n) : Fin d → ℚ :=
  fun j => ∑ i, u i * dims i j

/-- `Unit.dimensionless` of pint: the dimensionality vanishes. -/
def isDimensionlessB {n d : ℕ} (dims : Fin n → Fin d → ℚ) (u : UnitV n) : Bool :=
  decide (udim dims u = fun _ => 0)

/-- A Python float produced by unit conversion or given by the user, kept
exact: a rational coefficient times the formal product of the base scale
symbols of the named units, `c * Π s_i ^ e_i`. -/
abbrev Mag (n : ℕ) := ℚ × (Fin n → ℚ)

/-- The float `1.0`. -/
def magOne (n : ℕ) : Mag n := (1, fun _ => 0)

/-- Product of two magnitudes. -/
def magMul {n : ℕ} (a b : Mag n) : Mag n := (a.1 * b.1, fun i => a.2 i + b.2 i)

/-- A plain user-supplied scalar, carrying no scale symbols. -/
def plainMag {n : ℕ} (q : ℚ) : Mag n := (q, fun _ => 0)

/-- pint's scalar conversion factor `(1 * u).to(v).magnitude` for
dimensionally compatible `u`, `v`: the formal quotient of the scales,
`Π s_i ^ (u_i - v_i)`. -/
def convFactor {n : ℕ} (u v : UnitV n) : Mag n := (1, fun i => u i - v i)

/-- The additive operators routed through `UExpr._binary_op_same_dim`. -/
inductive BinOp where
  | add
  | sub
deriving DecidableEq, Repr

/-- The comparison operators routed through `UExpr._cmp_same_dim`. -/
inductive CmpOp where
  | lt
  | le
  | gt
  | ge
  | eq
  | ne
deriving DecidableEq, Repr

/-- The construction tree of a polars expression, as built by the proxy.
Each constructor records one operation the source performs on the wrapped
`pl.Expr`.  `litE`/`objE` only occur inside a forwarded call's argument
list, standing for non-expression Python arguments passed through. -/
inductive Expr (n : ℕ) where
  | col (name : String)
  | binE (o : BinOp) (a b : Expr n)
  | binS (o : BinOp) (a : Expr n) (m : Mag n)
  | mulE (a b : Expr n)
  | mulS (a : Expr n) (m : Mag n)
  | divE (a b : Expr n)
  | divS (a : Expr n) (m : Mag n)
  | rdivS (m : Mag n) (a : Expr n)
  | powS (a : Expr n) (p : ℚ)
  | rpowS (m : Mag n) (a : Expr n)
  | sqrtE (a : Expr n)
  | negE (a : Expr n)
  | absE (a : Expr n)
  | cmpE (o : CmpOp) (a b : Expr n)
  | cmpS (o : CmpOp) (a : Expr n) (m : Mag n)
  | aliasE (a : Expr n) (name : String)
  | callE (name : String) (recv : Expr n) (args : List (Expr n))
  | litE (q : ℚ)
  | objE (t : String)

/-- The module-level `default_ureg` registry instance (identity 0). -/
def defaultReg : ℕ := 0

/-- The `UExpr` object: wrapped expression, resolved unit, registry id. -/
structure UExprS (n : ℕ) where
  expr : Expr n
  unit : UnitV n
  ureg : ℕ

/-- `UExpr.__init__(expr, unit, unit_registry)`: a `none` registry argument
(Python `None`, the default) falls back to the module-level default
registry. -/
def mkUExpr {n : ℕ} (e : Expr n) (u : UnitV n) (r : Option ℕ) : UExprS n :=
  ⟨e, u, r.getD defaultReg⟩

/-- A Python value appearing as the other operand of an overloaded
operator, or as an argument of a forwarded call.  `obj` is any object that
is neither a `UExpr` nor an int/float; we model such objects as defining no
reflected arithmetic accepting a `UExpr`. -/
inductive PyVal (n : ℕ) where
  | uexpr (a : UExprS n)
  | num (q : ℚ)
  | obj (t : String)

/-- `type(x).__name__` as used in error messages. -/
def pyTypeName {n : ℕ} : PyVal n → String
  | .uexpr _ => "UExpr"
  | .num _ => "float"
  | .obj t => t

/-- The exceptions the proxy can raise. -/
inductive PyError (n : ℕ) where
  | typeError (msg : String)
  | dimensionalityError (src dst : UnitV n) (msg : String)
  | attributeError (msg : String)

/-- Message of the `TypeError` raised by `_binary_op_same_dim`. -/
def binOpTypeErrMsg (t1 t2 : String) : String :=
  "Unsupported operand type(s) for operation: " ++ t1 ++ " and " ++ t2

/-- Message of the `TypeError` raised by `_cmp_same_dim`. -/
def cmpTypeErrMsg (t1 t2 : String) : String :=
  "Unsupported operand type(s) for comparison: " ++ t1 ++ " and " ++ t2

/-- Message of the `TypeError` the interpreter raises when both `__op__`
and the reflected operator return `NotImplemented`. -/
def pyOpTypeErrMsg (op t1 t2 : String) : String :=
  "unsupported operand type(s) for " ++ op ++ ": " ++ t1 ++ " and " ++ t2

/-- Message of the `AttributeError` raised by `UExpr.__getattr__`. -/
def attrErrMsg (tyName attrName : String) : String :=
  tyName ++ " object has no attribute " ++ attrName

/-- `UExpr.to(new_unit)`: compute the scalar conversion factor for one unit
of the current unit expressed in the new unit (pint raises a
`DimensionalityError` when the dimensionalities differ), multiply the
underlying expression by it, and rewrap with the new unit and the
receiver's registry. -/
def uto {n d : ℕ} (dims : Fin n → Fin d → ℚ) (a : UExprS n) (v : UnitV n) :
    Except (PyError n) (UExprS n) :=
  if udim dims a.unit = udim dims v then
    .ok (mkUExpr (.mulS a.expr (convFactor a.unit v)) v (some a.ureg))
  else
    .error (.dimensionalityError a.unit v ("cannot convert between incompatible dimensionalities"))

/-- `UExpr._binary_op_same_dim(other, op)`: a `UExpr` operand is converted
to the receiver's unit first when the units differ; an int/float is
combined directly; anything else raises a `TypeError` naming both types.
The result keeps the receiver's unit and registry. -/
def binaryOpSameDim {n d : ℕ} (dims : Fin n → Fin d → ℚ) (a : UExprS n)
    (x : PyVal n) (o : BinOp) : Except (PyError n) (UExprS n) :=
  match x with
  | .uexpr b =>
    if a.unit = b.unit then
      .ok (mkUExpr (.binE o a.expr b.expr) a.unit (some a.ureg))
    else
      match uto dims b a.unit with
      | .ok bc => .ok (mkUExpr (.binE o a.expr bc.expr) a.unit (some a.ureg))
      | .error e => .error e
  | .num q => .ok (mkUExpr (.binS o a.expr (plainMag q)) a.unit (some a.ureg))
  | .obj t => .error (.typeError (binOpTypeErrMsg ("UExpr") t))

/-- `UExpr._cmp_same_dim(other, op)`: same conversion rule as the additive
operators, but the result is the bare comparison expression. -/
def cmpSameDim {n d : ℕ} (dims : Fin n → Fin d → ℚ) (a : UExprS n)
    (x : PyVal n) (o : CmpOp) : Except (PyError n) (Expr n) :=
  match x with
  | .uexpr b =>
    if a.unit = b.unit then
      .ok (.cmpE o a.expr b.expr)
    else
      match uto dims b a.unit with
      | .ok bc => .ok (.cmpE o a.expr bc.expr)
      | .error e => .error e
  | .num q => .ok (.cmpS o a.expr (plainMag q))
  | .obj t => .error (.typeError (cmpTypeErrMsg ("UExpr") t))

/-- `UExpr.__add__`. -/
def uexprAdd {n d : ℕ} (dims : Fin n → Fin d → ℚ) (a : UExprS n) (x : PyVal n) :
    Except (PyError n) (UExprS n) :=
  binaryOpSameDim dims a x .add

/-- `UExpr.__sub__`. -/
def uexprSub {n d : ℕ} (dims : Fin n → Fin d → ℚ) (a : UExprS n) (x : PyVal n) :
    Except (PyError n) (UExprS n) :=
  binaryOpSameDim dims a x .sub

/-- `UExpr.__mul__`: note that both `UExpr(...)` constructions pass no
`unit_registry` argument, so the result holds the default registry.
Returns `none` for `NotImplemented`. -/
def uexprMul {n : ℕ} (a : UExprS n) (x : PyVal n) : Option (UExprS n) :=
  match x with
  | .uexpr b => some (mkUExpr (.mulE a.expr b.expr) (umul a.unit b.unit) none)
  | .num q => some (mkUExpr (.mulS a.expr (plainMag q)) a.unit none)
  | .obj _ => none

/-- Interpreter dispatch of `a * x`: when `UExpr.__mul__` returns
`NotImplemented` and the operand defines no reflected multiplication
accepting a `UExpr`, Python raises a `TypeError` naming both types. -/
def mulDispatch {n : ℕ} (a : UExprS n) (x : PyVal n) :
    Except (PyError n) (UExprS n) :=
  match uexprMul a x with
  | some r => .ok r
  | none => .error (.typeError (pyOpTypeErrMsg ("*") ("UExpr") (pyTypeName x)))

/-- Interpreter dispatch of `q * a` for a number `q`: the number's own
multiplication returns `NotImplemented` on a `UExpr`, so Python calls
`UExpr.__rmul__`, which is `self.__mul__(other)`. -/
def rmulDispatch {n : ℕ} (q : ℚ) (a : UExprS n) :
    Except (PyError n) (UExprS n) :=
  match uexprMul a (.num q) with
  | some r => .ok r
  | none => .error (.typeError (pyOpTypeErrMsg ("*") ("float") ("UExpr")))

/-- `UExpr.__truediv__`: as with `__mul__`, no `unit_registry` argument is
passed to the result's constructor.  Returns `none` for `NotImplemented`. -/
def uexprDiv {n : ℕ} (a : UExprS n) (x : PyVal n) : Option (UExprS n) :=
  match x with
  | .uexpr b => some (mkUExpr (.divE a.expr b.expr) (udiv a.unit b.unit) none)
  | .num q => some (mkUExpr (.divS a.expr (plainMag q)) a.unit none)
  | .obj _ => none

/-- Interpreter dispatch of `a / x`. -/
def divDispatch {n : ℕ} (a : UExprS n) (x : PyVal n) :
    Except (PyError n) (UExprS n) :=
  match uexprDiv a x with
  | some r => .ok r
  | none => .error (.typeError (pyOpTypeErrMsg ("/") ("UExpr") (pyTypeName x)))

/-- `UExpr.__rtruediv__` for a numeric left operand: unit becomes
`dimensionless / unit`; the receiver's registry is passed through. -/
def rtruedivNum {n : ℕ} (q : ℚ) (a : UExprS n) : UExprS n :=
  mkUExpr (.rdivS (plainMag q) a.expr) (udiv (uzero n) a.unit) (some a.ureg)

/-- `UExpr.__pow__`: numeric exponents only; the unit is raised to the
same power; no `unit_registry` argument is passed to the constructor.
Returns `none` for `NotImplemented`. -/
def uexprPow {n : ℕ} (a : UExprS n) (x : PyVal n) : Option (UExprS n) :=
  match x with
  | .num p => some (mkUExpr (.powS a.expr p) (upow a.unit p) none)
  | _ => none

/-- Interpreter dispatch of `a ** x`. -/
def powDispatch {n : ℕ} (a : UExprS n) (x : PyVal n) :
    Except (PyError n) (UExprS n) :=
  match uexprPow a x with
  | some r => .ok r
  | none => .error (.typeError (pyOpTypeErrMsg ("**") ("UExpr") (pyTypeName x)))

/-- `UExpr.__rpow__` for a numeric base: keeps the receiver's unit; no
`unit_registry` argument is passed to the constructor. -/
def rpowNum {n : ℕ} (q : ℚ) (a : UExprS n) : UExprS n :=
  mkUExpr (.rpowS (plainMag q) a.expr) a.unit none

/-- `UExpr.sqrt()`: square root of the expression, unit raised to 0.5,
registry passed through. -/
def usqrt {n : ℕ} (a : UExprS n) : UExprS n :=
  mkUExpr (.sqrtE a.expr) (upow a.unit (1 / 2)) (some a.ureg)

/-- `UExpr.unwrap()`: the bare underlying expression. -/
def unwrapU {n : ℕ} (a : UExprS n) : Expr n := a.expr

/-- `UExpr.alias(name)`: renames the bare underlying expression; the
result is a plain expression, not a `UExpr`. -/
def ualias {n : ℕ} (a : UExprS n) (name : String) : Expr n :=
  .aliasE a.expr name

/-- `UExpr.__abs__`. -/
def uabs {n : ℕ} (a : UExprS n) : UExprS n :=
  mkUExpr (.absE a.expr) a.unit (some a.ureg)

/-- `UExpr.__neg__`. -/
def uneg {n : ℕ} (a : UExprS n) : UExprS n :=
  mkUExpr (.negE a.expr) a.unit (some a.ureg)

/-- `UExpr.__lt__`. -/
def ltDispatch {n d : ℕ} (dims : Fin n → Fin d → ℚ) (a : UExprS n) (x : PyVal n) :
    Except (PyError n) (Expr n) :=
  cmpSameDim dims a x .lt

/-- `UExpr.__le__`. -/
def leDispatch {n d : ℕ} (dims : Fin n → Fin d → ℚ) (a : UExprS n) (x : PyVal n) :
    Except (PyError n) (Expr n) :=
  cmpSameDim dims a x .le

/-- `UExpr.__gt__`. -/
def gtDispatch {n d : ℕ} (dims : Fin n → Fin d → ℚ) (a : UExprS n) (x : PyVal n) :
    Except (PyError n) (Expr n) :=
  cmpSameDim dims a x .gt

/-- `UExpr.__ge__`. -/
def geDispatch {n d : ℕ} (dims : Fin n → Fin d → ℚ) (a : UExprS n) (x : PyVal n) :
    Except (PyError n) (Expr n) :=
  cmpSameDim dims a x .ge

/-- `UExpr.__eq__`: a non-`UExpr` operand of any kind raises a `TypeError`
before `_cmp_same_dim` is reached. -/
def eqDispatch {n d : ℕ} (dims : Fin n → Fin d → ℚ) (a : UExprS n) (x : PyVal n) :
    Except (PyError n) (Expr n) :=
  match x with
  | .uexpr b => cmpSameDim dims a (.uexpr b) .eq
  | _ => .error (.typeError ("Equality comparison requires another UExpr"))

/-- `UExpr.__ne__`: same strictness as `__eq__`. -/
def neDispatch {n d : ℕ} (dims : Fin n → Fin d → ℚ) (a : UExprS n) (x : PyVal n) :
    Except (PyError n) (Expr n) :=
  match x with
  | .uexpr b => cmpSameDim dims a (.uexpr b) .ne
  | _ => .error (.typeError ("Inequality comparison requires another UExpr"))

/-- The attribute names normal Python lookup finds on a `UExpr` itself
(instance attributes plus the methods defined on the class), for which
`__getattr__` is never invoked. -/
def ownAttrs : List String :=
  ["expr", "unit", "ureg", "col", "to", "dimensionality", "is_dimensionless",
   "sqrt", "unwrap", "alias",
   "_require_dimensionless", "_binary_op_same_dim", "_cmp_same_dim",
   "__init__", "__getattr__", "__add__", "__sub__", "__mul__", "__rmul__",
   "__truediv__", "__rtruediv__", "__pow__", "__rpow__",
   "__lt__", "__le__", "__gt__", "__ge__", "__eq__", "__ne__",
   "__abs__", "__neg__"]

/-- The dimensionless-required method-name set of `UExpr.__getattr__`. -/
def dimensionlessMethods : List String :=
  ["exp", "log", "log10", "log1p", "sin", "cos", "tan",
   "sinh", "cosh", "tanh", "arcsin", "arccos", "arctan",
   "arcsinh", "arccosh", "arctanh", "cot", "degrees", "radians", "entropy"]

/-- Python `name.startswith(under)` for a single underscore: the first
character of the name is an underscore (false on the empty name). -/
def startsWithUnderscoreB (name : String) : Bool :=
  match name.data with
  | [] => false
  | c :: _ => c = '_'

/-- What attribute access on a `UExpr` resolves to when it succeeds. -/
inductive AttrResult where
  | ownAttribute (name : String)
  | forwardedMethod (name : String)
deriving DecidableEq, Repr

/-- Attribute lookup on a `UExpr`: names on the object itself are found by
normal lookup; otherwise `__getattr__` runs, which rejects every name
starting with an underscore, then checks the dimensionless-required set
against the receiver's unit before touching the wrapped expression, and
otherwise resolves to the forwarding proxy for the engine method. -/
def uexprGetattr {n d : ℕ} (dims : Fin n → Fin d → ℚ) (a : UExprS n)
    (name : String) : Except (PyError n) AttrResult :=
  if name ∈ ownAttrs then
    .ok (.ownAttribute name)
  else if startsWithUnderscoreB name then
    .error (.attributeError (attrErrMsg ("UExpr") name))
  else if name ∈ dimensionlessMethods then
    if isDimensionlessB dims a.unit then
      .ok (.forwardedMethod name)
    else
      .error (.dimensionalityError a.unit (uzero n)
        (name ++ " requires a dimensionless quantity"))
  else
    .ok (.forwardedMethod name)

/-- Unwrapping of a forwarded call's argument: a `UExpr` argument is
replaced by its wrapped expression, other Python values pass through (as
literal argument nodes of the call). -/
def unwrapArg {n : ℕ} : PyVal n → Expr n
  | .uexpr b => b.expr
  | .num q => .litE q
  | .obj t => .objE t

/-- Result of accessing a name on a `UExpr` and calling it. -/
inductive ForwardOutcome (n : ℕ) where
  | notForwarded (name : String)
  | wrapped (r : UExprS n)

/-- `getattr(a, name)(*args)` through the proxy, modelling the engine as
supplying, for every public name, a callable that returns a new
expression.  The second component records whether the wrapped expression
object (the engine) was touched at all.  On success the result is wrapped
with the dimensionless unit when the name is in the dimensionless-required
set and with the receiver's unit otherwise, and with the receiver's
registry. -/
def forwardCall {n d : ℕ} (dims : Fin n → Fin d → ℚ) (a : UExprS n)
    (name : String) (args : List (PyVal n)) :
    Except (PyError n) (ForwardOutcome n) × Bool :=
  match uexprGetattr dims a name with
  | .error e => (.error e, false)
  | .ok (.ownAttribute nm) => (.ok (.notForwarded nm), false)
  | .ok (.forwardedMethod nm) =>
      (.ok (.wrapped (mkUExpr (.callE nm a.expr (args.map unwrapArg))
        (if nm ∈ dimensionlessMethods then uzero n else a.unit)
        (some a.ureg))), true)

/-! ## Concrete fixtures used by witnesses

A two-named-unit, one-dimension universe: coordinate 0 is `meter`,
coordinate 1 is `centimeter`, both of dimension length. -/

/-- Dimension map: both named units have the single dimension `length`. -/
def dimsLen : Fin 2 → Fin 1 → ℚ := fun _ _ => 1

/-- The unit `meter`: exponent 1 on coordinate 0. -/
def meterU : UnitV 2 := fun i => if i = 0 then 1 else 0

/-- The unit `centimeter`: exponent 1 on coordinate 1. -/
def cmU : UnitV 2 := fun i => if i = 0 then 0 else 1

/-- A column in meters, built on registry 7. -/
def aMeter : UExprS 2 := ⟨.col ("a"), meterU, 7⟩

/-- A column in centimeters, built on registry 7. -/
def bCm : UExprS 2 := ⟨.col ("b"), cmU, 7⟩

/-- A dimensionless column, built on registry 7. -/
def xDimless : UExprS 2 := ⟨.col ("x"), uzero 2, 7⟩

/-- `meter` and `centimeter` have equal dimensionality. -/
theorem dim_meter_eq_cm : udim dimsLen meterU = udim dimsLen cmU := by
  funext j
  simp [udim, dimsLen, meterU, cmU, Fin.sum_univ_two]

/-- `meter` and `centimeter` are different units. -/
theorem meter_ne_cm : meterU ≠ cmU := by
  intro h
  have h0 := congrFun h 0
  simp [meterU, cmU] at h0

/-- The meter column is not dimensionless. -/
theorem meter_not_dimensionless : isDimensionlessB dimsLen meterU = false := by
  have h : udim dimsLen meterU = fun _ => (1 : ℚ) := by
    funext j
    simp [udim, dimsLen, meterU, Fin.sum_univ_two]
  simp [isDimensionlessB, h]
  intro hc
  have h0 := congrFun hc 0
  norm_num at h0

/-- The empty unit is dimensionless. -/
theorem uzero_dimensionless : isDimensionlessB dimsLen (uzero 2) = true := by
  have h : udim dimsLen (uzero 2) = fun _ => (0 : ℚ) := by
    funext j
    simp [udim, dimsLen, uzero, Fin.sum_univ_two]
  simp [isDimensionlessB, h]

/-! ## Claims -/

/-- C1: the claim states that `*`, `/` and `**` on operands built with a
custom registry produce a result whose registry reference equals that
custom registry, never the default one.  The source contradicts it: unlike
every other constructor call in the class, `__mul__`, `__truediv__` and
`__pow__` build the result without a `unit_registry` argument, so the
result falls back to the default registry.  Evaluated here at operands
carrying the custom registry id 1: each result's registry is the default
registry, which differs from the operands' registry. -/
theorem C1_mul_div_pow_drop_custom_registry :
    (mulDispatch (⟨.col ("d1"), fun _ => 1, 1⟩ : UExprS 1)
        (.uexpr ⟨.col ("d2"), fun _ => 1, 1⟩)).map (fun r => r.ureg) =
      .ok defaultReg ∧
    (divDispatch (⟨.col ("d1"), fun _ => 1, 1⟩ : UExprS 1)
        (.uexpr ⟨.col ("d2"), fun _ => 1, 1⟩)).map (fun r => r.ureg) =
      .ok defaultReg ∧
    (powDispatch (⟨.col ("d1"), fun _ => 1, 1⟩ : UExprS 1)
        (.num 2)).map (fun r => r.ureg) = .ok defaultReg ∧
    defaultReg ≠ 1 := by
  refine ⟨rfl, rfl, rfl, ?_⟩
  simp [defaultReg]

/-- C4: equality and inequality against any operand that is not a `UExpr`
(numeric scalars included) raise a `TypeError`; they never fall back to a
scalar comparison. -/
theorem C4_eq_ne_require_uexpr {n d : ℕ} (dims : Fin n → Fin d → ℚ)
    (a : UExprS n) (q : ℚ) (t : String) :
    eqDispatch dims a (.num q) =
      .error (.typeError ("Equality comparison requires another UExpr")) ∧
    neDispatch dims a (.num q) =
      .error (.typeError ("Inequality comparison requires another UExpr")) ∧
    eqDispatch dims a (.obj t) =
      .error (.typeError ("Equality comparison requires another UExpr")) ∧
    neDispatch dims a (.obj t) =
      .error (.typeError ("Inequality comparison requires another UExpr")) :=
  ⟨rfl, rfl, rfl, rfl⟩

/-- C5: each of `+`, `-`, `*`, `/` on an operand that is neither a `UExpr`
nor an int/float fails with a `TypeError` whose message names both operand
types (for `+`/`-` raised by `_binary_op_same_dim` itself; for `*`/`/` by
the interpreter after `__mul__`/`__truediv__` return `NotImplemented` and
the operand offers no reflected operator). -/
theorem C5_arith_unsupported_operand_type_error {n d : ℕ}
    (dims : Fin n → Fin d → ℚ) (a : UExprS n) (t : String) :
    uexprAdd dims a (.obj t) =
      .error (.typeError (binOpTypeErrMsg ("UExpr") t)) ∧
    uexprSub dims a (.obj t) =
      .error (.typeError (binOpTypeErrMsg ("UExpr") t)) ∧
    mulDispatch a (.obj t) =
      .error (.typeError (pyOpTypeErrMsg ("*") ("UExpr") t)) ∧
    divDispatch a (.obj t) =
      .error (.typeError (pyOpTypeErrMsg ("/") ("UExpr") t)) :=
  ⟨rfl, rfl, rfl, rfl⟩

/-- C6: the product of two `UExpr`s carries the unit-algebra product of the
units, the quotient carries the left unit divided by the right unit, a
power with numeric exponent `p` (fractional allowed) carries the unit
raised to `p`, and `sqrt()` carries the unit raised to 0.5 with the
expression replaced by its square root. -/
theorem C6_unit_algebra_mul_div_pow_sqrt {n : ℕ} (a b : UExprS n) (p : ℚ) :
    mulDispatch a (.uexpr b) =
      .ok ⟨.mulE a.expr b.expr, umul a.unit b.unit, defaultReg⟩ ∧
    divDispatch a (.uexpr b) =
      .ok ⟨.divE a.expr b.expr, udiv a.unit b.unit, defaultReg⟩ ∧
    powDispatch a (.num p) =
      .ok ⟨.powS a.expr p, upow a.unit p, defaultReg⟩ ∧
    usqrt a = ⟨.sqrtE a.expr, upow a.unit (1 / 2), a.ureg⟩ :=
  ⟨rfl, rfl, rfl, rfl⟩

/-- C7: multiplying a `UExpr` by a numeric scalar on either side goes
through the same `__mul__` body (`__rmul__` delegates to it), so `a * k`
and `k * a` agree, with the receiver's unit and the scaled expression. -/
theorem C7_scalar_mul_commutes {n : ℕ} (a : UExprS n) (k : ℚ) :
    mulDispatch a (.num k) = rmulDispatch k a ∧
    mulDispatch a (.num k) =
      .ok ⟨.mulS a.expr (plainMag k), a.unit, defaultReg⟩ :=
  ⟨rfl, rfl⟩

/-- C10: `alias(name)` returns the bare renamed underlying expression — a
plain expression value, not a `UExpr` — so no unit or registry is carried
past aliasing. -/
theorem C10_alias_returns_bare_expr {n : ℕ} (a : UExprS n) (nm : String) :
    ualias a nm = Expr.aliasE (unwrapU a) nm :=
  rfl

/-- C2: for operands of equal dimensionality, `+`, `-` and the ordering
comparisons convert the right operand into the left operand's unit by
multiplying its underlying expression with the scalar conversion factor
whenever the units differ, and insert no factor when the units are already
equal; for `+` and `-` the result carries the left operand's unit (and
registry) in both cases. -/
theorem C2_same_dim_right_to_left_conversion {n d : ℕ}
    (dims : Fin n → Fin d → ℚ) (a b : UExprS n)
    (hdim : udim dims a.unit = udim dims b.unit) :
    (a.unit ≠ b.unit →
      uexprAdd dims a (.uexpr b) =
        .ok ⟨.binE .add a.expr (.mulS b.expr (convFactor b.unit a.unit)),
          a.unit, a.ureg⟩ ∧
      uexprSub dims a (.uexpr b) =
        .ok ⟨.binE .sub a.expr (.mulS b.expr (convFactor b.unit a.unit)),
          a.unit, a.ureg⟩ ∧
      ltDispatch dims a (.uexpr b) =
        .ok (.cmpE .lt a.expr (.mulS b.expr (convFactor b.unit a.unit))) ∧
      leDispatch dims a (.uexpr b) =
        .ok (.cmpE .le a.expr (.mulS b.expr (convFactor b.unit a.unit))) ∧
      gtDispatch dims a (.uexpr b) =
        .ok (.cmpE .gt a.expr (.mulS b.expr (convFactor b.unit a.unit))) ∧
      geDispatch dims a (.uexpr b) =
        .ok (.cmpE .ge a.expr (.mulS b.expr (convFactor b.unit a.unit)))) ∧
    (a.unit = b.unit →
      uexprAdd dims a (.uexpr b) =
        .ok ⟨.binE .add a.expr b.expr, a.unit, a.ureg⟩ ∧
      uexprSub dims a (.uexpr b) =
        .ok ⟨.binE .sub a.expr b.expr, a.unit, a.ureg⟩ ∧
      ltDispatch dims a (.uexpr b) = .ok (.cmpE .lt a.expr b.expr) ∧
      leDispatch dims a (.uexpr b) = .ok (.cmpE .le a.expr b.expr) ∧
      gtDispatch dims a (.uexpr b) = .ok (.cmpE .gt a.expr b.expr) ∧
      geDispatch dims a (.uexpr b) = .ok (.cmpE .ge a.expr b.expr)) := by
  have hconv : uto dims b a.unit =
      .ok (mkUExpr (.mulS b.expr (convFactor b.unit a.unit)) a.unit
        (some b.ureg)) := by
    unfold uto
    rw [if_pos hdim.symm]
  constructor
  · intro hne
    refine ⟨?_, ?_, ?_, ?_, ?_, ?_⟩ <;>
      simp [uexprAdd, uexprSub, ltDispatch, leDispatch, gtDispatch,
        geDispatch, binaryOpSameDim, cmpSameDim, hne, hconv, mkUExpr]
  · intro he
    refine ⟨?_, ?_, ?_, ?_, ?_, ?_⟩ <;>
      simp [uexprAdd, uexprSub, ltDispatch, leDispatch, gtDispatch,
        geDispatch, binaryOpSameDim, cmpSameDim, he, mkUExpr]

/-- Witness for C2 at `a` in meters and `b` in centimeters on registry 7:
the sum converts the right operand and keeps the meter unit. -/
theorem C2_same_dim_right_to_left_conversion_witness :
    uexprAdd dimsLen aMeter (.uexpr bCm) =
      .ok ⟨.binE .add aMeter.expr (.mulS bCm.expr (convFactor cmU meterU)),
        meterU, 7⟩ :=
  ((C2_same_dim_right_to_left_conversion dimsLen aMeter bCm
    dim_meter_eq_cm).1 meter_ne_cm).1

/-- C8: for a target unit of the same dimensionality, `to` rewraps with
the target unit and the receiver's registry while multiplying the
expression by the conversion factor; converting back multiplies by the
inverse factor, and the two factors multiply to exactly 1. -/
theorem C8_roundtrip_conversion {n d : ℕ} (dims : Fin n → Fin d → ℚ)
    (a : UExprS n) (v : UnitV n)
    (hdim : udim dims a.unit = udim dims v) :
    uto dims a v =
      .ok ⟨.mulS a.expr (convFactor a.unit v), v, a.ureg⟩ ∧
    uto dims (⟨.mulS a.expr (convFactor a.unit v), v, a.ureg⟩ : UExprS n)
        a.unit =
      .ok ⟨.mulS (.mulS a.expr (convFactor a.unit v)) (convFactor v a.unit),
        a.unit, a.ureg⟩ ∧
    magMul (convFactor a.unit v) (convFactor v a.unit) = magOne n := by
  refine ⟨?_, ?_, ?_⟩
  · unfold uto
    rw [if_pos hdim]
    rfl
  · unfold uto
    rw [if_pos hdim.symm]
    rfl
  · simp [magMul, convFactor, magOne]

/-- Witness for C8: meters to centimeters and back on registry 7. -/
theorem C8_roundtrip_conversion_witness :
    uto dimsLen aMeter cmU =
      .ok ⟨.mulS aMeter.expr (convFactor meterU cmU), cmU, 7⟩ ∧
    magMul (convFactor meterU cmU) (convFactor cmU meterU) = magOne 2 :=
  ⟨(C8_roundtrip_conversion dimsLen aMeter cmU dim_meter_eq_cm).1,
   (C8_roundtrip_conversion dimsLen aMeter cmU dim_meter_eq_cm).2.2⟩

/-- C9: accessing an attribute whose name begins with an underscore and
that is not defined on `UExpr` itself raises an `AttributeError` and is
never forwarded: the wrapped expression object is not touched. -/
theorem C9_underscore_attributes_blocked {n d : ℕ}
    (dims : Fin n → Fin d → ℚ) (a : UExprS n) (name : String)
    (args : List (PyVal n))
    (hu : startsWithUnderscoreB name = true)
    (hown : name ∉ ownAttrs) :
    uexprGetattr dims a name =
      .error (.attributeError (attrErrMsg ("UExpr") name)) ∧
    forwardCall dims a name args =
      (.error (.attributeError (attrErrMsg ("UExpr") name)), false) := by
  have hg : uexprGetattr dims a name =
      .error (.attributeError (attrErrMsg ("UExpr") name)) := by
    unfold uexprGetattr
    rw [if_neg hown, if_pos hu]
  refine ⟨hg, ?_⟩
  unfold forwardCall
  rw [hg]

/-- Witness for C9 at the private name of the conversion helper. -/
theorem C9_underscore_attributes_blocked_witness :
    uexprGetattr dimsLen aMeter ("_factor") =
      .error (.attributeError (attrErrMsg ("UExpr") ("_factor"))) ∧
    forwardCall dimsLen aMeter ("_factor") [] =
      (.error (.attributeError (attrErrMsg ("UExpr") ("_factor"))), false) :=
  C9_underscore_attributes_blocked dimsLen aMeter ("_factor") [] (by rfl)
    (by simp [ownAttrs])

/-- C3: calling a dimensionless-required method on a receiver whose unit
is not dimensionless fails with a `DimensionalityError` without touching
the wrapped expression object; on a dimensionless receiver the wrapped
result carries the dimensionless unit (not the receiver's original unit),
and a forwarded name outside the set yields a result carrying exactly the
receiver's unit. -/
theorem C3_dimensionless_gate_and_unit_assignment {n d : ℕ}
    (dims : Fin n → Fin d → ℚ) (a : UExprS n) (name : String)
    (args : List (PyVal n)) :
    (name ∈ dimensionlessMethods → isDimensionlessB dims a.unit = false →
      forwardCall dims a name args =
        (.error (.dimensionalityError a.unit (uzero n)
          (name ++ " requires a dimensionless quantity")), false)) ∧
    (name ∈ dimensionlessMethods → isDimensionlessB dims a.unit = true →
      forwardCall dims a name args =
        (.ok (.wrapped ⟨.callE name a.expr (args.map unwrapArg), uzero n,
          a.ureg⟩), true)) ∧
    (name ∉ dimensionlessMethods → name ∉ ownAttrs →
      startsWithUnderscoreB name = false →
      forwardCall dims a name args =
        (.ok (.wrapped ⟨.callE name a.expr (args.map unwrapArg), a.unit,
          a.ureg⟩), true)) := by
  have hdisj : ∀ x ∈ dimensionlessMethods, x ∉ ownAttrs := by
    simp [dimensionlessMethods, ownAttrs]
  have hus : ∀ x ∈ dimensionlessMethods, startsWithUnderscoreB x = false := by
    decide
  refine ⟨?_, ?_, ?_⟩
  · intro hmem hnd
    simp [forwardCall, uexprGetattr, hdisj name hmem, hus name hmem, hmem,
      hnd, mkUExpr]
  · intro hmem hd
    simp [forwardCall, uexprGetattr, hdisj name hmem, hus name hmem, hmem,
      hd, mkUExpr]
  · intro hnm hown hu
    simp [forwardCall, uexprGetattr, hnm, hown, hu, mkUExpr]

/-- Witness for C3: `log` on a meter column is rejected before forwarding,
`log` on a dimensionless column is wrapped with the dimensionless unit,
and `sum` on a meter column keeps the meter unit. -/
theorem C3_dimensionless_gate_and_unit_assignment_witness :
    forwardCall dimsLen aMeter ("log") [] =
      (.error (.dimensionalityError meterU (uzero 2)
        ("log" ++ " requires a dimensionless quantity")), false) ∧
    forwardCall dimsLen xDimless ("log") [] =
      (.ok (.wrapped ⟨.callE ("log") xDimless.expr [], uzero 2, 7⟩),
        true) ∧
    forwardCall dimsLen aMeter ("sum") [] =
      (.ok (.wrapped ⟨.callE ("sum") aMeter.expr [], meterU, 7⟩), true) :=
  ⟨(C3_dimensionless_gate_and_unit_assignment dimsLen aMeter ("log") []).1
      (by simp [dimensionlessMethods]) meter_not_dimensionless,
   (C3_dimensionless_gate_and_unit_assignment dimsLen xDimless ("log")
      []).2.1 (by simp [dimensionlessMethods]) uzero_dimensionless,
   (C3_dimensionless_gate_and_unit_assignment dimsLen aMeter ("sum")
      []).2.2 (by simp [dimensionlessMethods]) (by simp [ownAttrs])
      (by rfl)⟩

end PolarsUnits
